import Mathlib

/-!
Verification development for the FDO FIDO conformance server.

This file gives a shallow embedding of the protocol handlers and stores of
the repository and proves properties about them:

* `dbs` — the badger-backed session store (`session.db.go`): entry creation
  with a TTL, update, and lookup, over an explicit model of a key-value store
  with per-entry expiry timestamps (badger semantics: `SetEntry ... WithTTL`
  stamps an expiry, plain `Set` stores the entry with no expiry, and `Get`
  treats an expired entry as not found).
* `to2` — the `DeviceServiceInfo68` handler of the TO2 owner sub-protocol.
* `rv` — the `Handle30HelloRV` and `Handle32ProveToRV` handlers of the TO1
  rendezvous sub-protocol.
* `testexec` — the `preExecuteTo2_66` voucher-entry iteration of the test
  executor (`do.to2.66.execute.go`).

External collaborators that are not part of the given sources (the CBOR
codec, the COSE signature verifier, the encryption wrapper, the fuzzing
helpers, and the conformance listener database) are modelled as components
of an explicit environment record: each handler takes the outcome of those
calls as a function-valued or flag-valued field and the theorems quantify
over all such environments.  The conformance-listener bookkeeping block that
each handler runs (CheckCmdTestingIsCompleted / CheckExpectedCmd / PushFail /
PushSuccess / GetNextTestID followed by a listener-database update) is
abstracted by `testcom.ListenerPhase`: either no listener is active, or the
block ran, saved with success or failure, and selected a test identifier.
-/

set_option linter.unusedVariables false

namespace fdoshared

inductive FdoError where
  | MESSAGE_BODY_ERROR
  | INVALID_MESSAGE_ERROR
  | INTERNAL_SERVER_ERROR
  | RESOURCE_NOT_FOUND
  deriving DecidableEq, Repr

inductive FdoProtocol where
  | To1
  | To2
  deriving DecidableEq, Repr

def TO2_64_PROVE_DEVICE : Nat := 64

def TO2_67_OWNER_SERVICE_INFO_READY : Nat := 67

def TO2_68_DEVICE_SERVICE_INFO : Nat := 68

def TO2_69_OWNER_SERVICE_INFO : Nat := 69

/-- Opaque service-info blob (a `ServiceInfoKV` value), modelled as raw bytes. -/
abbrev ServiceInfoKV := List Nat

structure DeviceServiceInfo68 where
  IsMoreServiceInfo : Bool
  ServiceInfo : Option ServiceInfoKV
  deriving DecidableEq, Repr

structure OwnerServiceInfo69 where
  IsMoreServiceInfo : Bool
  IsDone : Bool
  ServiceInfo : Option ServiceInfoKV
  deriving DecidableEq, Repr

/-- COSE_Sign1 envelope; only the payload is inspected by the handlers, the
rest of the structure is carried opaquely as signature bytes. -/
structure CoseSignature where
  Payload : List Nat
  Signature : List Nat
  deriving DecidableEq, Repr

structure EATPayloadBase where
  EatNonce : List Nat
  deriving DecidableEq, Repr

structure OVPublicKeyDescr where
  PkType : Nat
  deriving DecidableEq, Repr

structure OVHeader where
  OVPublicKey : OVPublicKeyDescr
  deriving DecidableEq, Repr

/-- Ownership voucher: the header is carried as opaque encoded bytes (it is
decoded by the external `GetOVHeader`), the device certificate chain is a
nullable pointer in the source, hence an `Option` here. -/
structure OwnershipVoucher where
  OVHeaderTag : List Nat
  OVDevCertChain : Option (List (List Nat))
  deriving DecidableEq, Repr

structure To0d where
  OwnershipVoucher : OwnershipVoucher
  deriving DecidableEq, Repr

structure HelloRV30 where
  Guid : List Nat
  EASigInfo : Nat
  deriving DecidableEq, Repr

structure HelloRVAck31 where
  NonceTO1Proof : List Nat
  EBSigInfo : Nat
  deriving DecidableEq, Repr

end fdoshared

namespace testcom

inductive FDOTestID where
  | NULL_TEST
  | FIDO_LISTENER_POSITIVE
  | FIDO_LISTENER_DEVICE_30_BAD_ENCODING
  | FIDO_LISTENER_DEVICE_32_BAD_TO1D
  | FIDO_LISTENER_DEVICE_32_BAD_ENCODING
  | OTHER_TEST (code : Nat)
  deriving DecidableEq, Repr

/-- Outcome of the conformance-listener bookkeeping block that each handler
runs before its main body (the listener package itself is external to the
given sources).  Either no listener entry is active for the device (or its
testing for this command is already completed), or the block ran: it pushed
its pass/fail bookkeeping, saved the listener record (`saveOk`), and
selected the test identifier for this step (`tid`). -/
inductive ListenerPhase where
  | inactive
  | active (saveOk : Bool) (tid : FDOTestID)
  deriving DecidableEq, Repr

/-- The test identifier the handler proceeds with: `none` when the listener
save failed (the handler answers with an internal error and stops),
`NULL_TEST` when no listener is active. -/
def listenerSelect : ListenerPhase → Option FDOTestID
  | .inactive => some .NULL_TEST
  | .active true tid => some tid
  | .active false _ => none

end testcom

namespace dbs

/-- `7 * 24 * time.Hour`, in seconds (badger expiry timestamps are unix seconds). -/
def MAX_SESSION_TIME : Nat := 7 * 24 * 60 * 60

structure SessionEntry where
  Username : String
  deriving DecidableEq, Repr

/-- One badger entry: value bytes plus an optional expiry timestamp
(`none` when the entry was stored without a TTL). -/
structure BadgerEntry where
  value : List Nat
  expiresAt : Option Nat
  deriving DecidableEq, Repr

/-- The badger key-value store, newest write first. -/
abbrev BadgerStore := List (String × BadgerEntry)

def badgerSetEntry (st : BadgerStore) (k : String) (v : List Nat) (ttlExpiry : Option Nat) :
    BadgerStore :=
  (k, { value := v, expiresAt := ttlExpiry }) :: st

def badgerEntryOf (st : BadgerStore) (k : String) : Option BadgerEntry :=
  (st.find? (fun e => e.1 == k)).map (fun e => e.2)

/-- `txn.Get`: an entry whose expiry timestamp is in the past is treated as
not found. -/
def badgerGet (st : BadgerStore) (now : Nat) (k : String) : Option (List Nat) :=
  match badgerEntryOf st k with
  | none => none
  | some e =>
    match e.expiresAt with
    | none => some e.value
    | some t => if now < t then some e.value else none

/-- Deterministic CBOR encoding of a `SessionEntry` (`toarray` struct with a
single text field), modelled as a length-prefixed byte list. -/
def cborMarshalSessionEntry (s : SessionEntry) : List Nat :=
  s.Username.data.length :: s.Username.data.map Char.toNat

def cborUnmarshalSessionEntry (b : List Nat) : Option SessionEntry :=
  match b with
  | [] => none
  | n :: rest =>
    if rest.length = n then some { Username := String.mk (rest.map Char.ofNat) } else none

/-- `NewSessionEntry`: marshal, build the key `"session-" + uuid`, store with
TTL `MAX_SESSION_TIME`, and return the raw uuid as the session token.  The
freshly generated random uuid string is an input of the model. -/
def NewSessionEntry (st : BadgerStore) (now : Nat) (randomEntryId : String)
    (sessionInst : SessionEntry) : String × BadgerStore :=
  let sessionEntryId := "session-" ++ randomEntryId
  (randomEntryId,
   badgerSetEntry st sessionEntryId (cborMarshalSessionEntry sessionInst)
     (some (now + MAX_SESSION_TIME)))

/-- `UpdateSessionEntry`: marshal and store under `"session-" + entryId` via a
plain `Set`, i.e. with no TTL. -/
def UpdateSessionEntry (st : BadgerStore) (entryId : String) (sessionInst : SessionEntry) :
    BadgerStore :=
  badgerSetEntry st ("session-" ++ entryId) (cborMarshalSessionEntry sessionInst) none

/-- `GetSessionEntry`: read `"session-" + entryId` and CBOR-decode the value. -/
def GetSessionEntry (st : BadgerStore) (now : Nat) (entryId : String) : Option SessionEntry :=
  (badgerGet st now ("session-" ++ entryId)).bind cborUnmarshalSessionEntry

end dbs

namespace to2

def MTU_BYTES : Nat := 1500

/-- The TO2 session fields read or written by `DeviceServiceInfo68`. -/
structure To2Session where
  PrevCMD : Nat
  DeviceSIMs : List fdoshared.ServiceInfoKV
  OwnerSIMs : List fdoshared.ServiceInfoKV
  OwnerSIMsSendCounter : Nat
  OwnerSIMsFinishedSending : Bool
  SessionKey : List Nat
  CipherSuiteName : Nat
  deriving DecidableEq, Repr

inductive DSIResp where
  | errResp (code : fdoshared.FdoError) (httpStatus : Nat)
  | okResp (osi : fdoshared.OwnerServiceInfo69) (body : List Nat)
  | crash
  deriving DecidableEq, Repr

/-- Result of one `DeviceServiceInfo68` request: the single response written,
and the session value passed to a *successful* `UpdateSessionEntry` call
(`none` when no session state was persisted).  In the `okResp` case the
response body is the encrypted encoding of the carried `OwnerServiceInfo69`
value, which is kept alongside as the observable payload. -/
structure DSIOutcome where
  resp : DSIResp
  persisted : Option To2Session
  deriving DecidableEq, Repr

/-- Environment of the `DeviceServiceInfo68` handler: outcomes of the
external collaborators (codec, encryption wrapper, listener and session
databases). `posCheckExpectedCmd` and `posSaveOk` are the results of the
`CheckExpectedCmd` / listener-update pair in the positive-test tail. -/
structure DSIEnv where
  phase : testcom.ListenerPhase
  decodeDeviceServiceInfo : List Nat → Option fdoshared.DeviceServiceInfo68
  cborMarshalOSI : fdoshared.OwnerServiceInfo69 → List Nat
  AddEncryptionWrapping : List Nat → List Nat → Nat → Option (List Nat)
  updateSessionOk : Bool
  posCheckExpectedCmd : Bool
  posSaveOk : Bool

/-- The `----- MAIN BODY -----` of `DeviceServiceInfo68`: either append the
device's service-info page to `DeviceSIMs`, or serve the next buffered owner
page.  `none` models a Go runtime panic (nil-pointer dereference of
`ServiceInfo`, or `OwnerSIMs[OwnerSIMsSendCounter]` out of range). -/
def serviceInfoStep (deviceServiceInfo : fdoshared.DeviceServiceInfo68) (session : To2Session) :
    Option (fdoshared.OwnerServiceInfo69 × To2Session) :=
  if deviceServiceInfo.IsMoreServiceInfo then
    match deviceServiceInfo.ServiceInfo with
    | none => none
    | some sim =>
      some ({ IsMoreServiceInfo := false, IsDone := false, ServiceInfo := none },
            { session with DeviceSIMs := session.DeviceSIMs ++ [sim] })
  else
    match session.OwnerSIMs.get? session.OwnerSIMsSendCounter with
    | none => none
    | some page =>
      if session.OwnerSIMsSendCounter + 1 ≥ session.OwnerSIMs.length then
        some ({ IsMoreServiceInfo := false, IsDone := true, ServiceInfo := some page },
              { session with OwnerSIMsFinishedSending := true,
                             OwnerSIMsSendCounter := session.OwnerSIMsSendCounter + 1 })
      else
        some ({ IsMoreServiceInfo := true, IsDone := false, ServiceInfo := some page },
              { session with OwnerSIMsSendCounter := session.OwnerSIMsSendCounter + 1 })

/-- The handler body after the listener bookkeeping block selected
`fdoTestId`: previous-command check, body decode, main body, marshal,
encryption wrapping, session persistence, positive-test tail, response. -/
def deviceServiceInfo68Body (env : DSIEnv) (fdoTestId : testcom.FDOTestID)
    (session : To2Session) (bodyBytes : List Nat) : DSIOutcome :=
  if ¬(session.PrevCMD = fdoshared.TO2_67_OWNER_SERVICE_INFO_READY ∨
       session.PrevCMD = fdoshared.TO2_69_OWNER_SERVICE_INFO) then
    { resp := .errResp .MESSAGE_BODY_ERROR 401, persisted := none }
  else
    match env.decodeDeviceServiceInfo bodyBytes with
    | none => { resp := .errResp .MESSAGE_BODY_ERROR 400, persisted := none }
    | some deviceServiceInfo =>
      match serviceInfoStep deviceServiceInfo session with
      | none => { resp := .crash, persisted := none }
      | some (ownerServiceInfo, session1) =>
        match env.AddEncryptionWrapping (env.cborMarshalOSI ownerServiceInfo)
            session1.SessionKey session1.CipherSuiteName with
        | none => { resp := .errResp .INTERNAL_SERVER_ERROR 500, persisted := none }
        | some encBytes =>
          let session2 := { session1 with PrevCMD := fdoshared.TO2_69_OWNER_SERVICE_INFO }
          if env.updateSessionOk then
            if fdoTestId = .FIDO_LISTENER_POSITIVE ∧ env.posCheckExpectedCmd = true ∧
               env.posSaveOk = false then
              { resp := .errResp .INTERNAL_SERVER_ERROR 400, persisted := some session2 }
            else
              { resp := .okResp ownerServiceInfo encBytes, persisted := some session2 }
          else
            { resp := .errResp .INTERNAL_SERVER_ERROR 500, persisted := none }

/-- The `DeviceServiceInfo68` handler, from the point where `CheckHeaders`
and `receiveAndDecrypt` have succeeded (the decrypted request body and the
resolved session are its inputs). -/
def DeviceServiceInfo68 (env : DSIEnv) (session : To2Session) (bodyBytes : List Nat) :
    DSIOutcome :=
  match testcom.listenerSelect env.phase with
  | none => { resp := .errResp .INTERNAL_SERVER_ERROR 400, persisted := none }
  | some fdoTestId => deviceServiceInfo68Body env fdoTestId session bodyBytes

/-- Device message that carries no page and no more-pages flag: the device is
done and is pulling owner pages. -/
def doneDeviceServiceInfo : fdoshared.DeviceServiceInfo68 :=
  { IsMoreServiceInfo := false, ServiceInfo := none }

/-- Environment for a fault-free pagination run: no listener active, decode
always yields the pulling device message, encoding is irrelevant to the
observed pages, encryption and persistence succeed. -/
def benignDSIEnv : DSIEnv :=
  { phase := .inactive
    decodeDeviceServiceInfo := fun _ => some doneDeviceServiceInfo
    cborMarshalOSI := fun _ => []
    AddEncryptionWrapping := fun b _ _ => some b
    updateSessionOk := true
    posCheckExpectedCmd := false
    posSaveOk := true }

/-- Session state entering the service-info exchange with owner pages `sims`
buffered and nothing sent yet. -/
def initialSIOSession (sims : List fdoshared.ServiceInfoKV) : To2Session :=
  { PrevCMD := fdoshared.TO2_67_OWNER_SERVICE_INFO_READY
    DeviceSIMs := []
    OwnerSIMs := sims
    OwnerSIMsSendCounter := 0
    OwnerSIMsFinishedSending := false
    SessionKey := []
    CipherSuiteName := 0 }

/-- Drive the repeated `DeviceServiceInfo68` / `OwnerServiceInfo69` exchange:
the device keeps pulling until a response carries `IsDone`.  Returns the
owner responses in order, or `none` on crash, error, or fuel exhaustion. -/
def runPagination : Nat → To2Session → Option (List fdoshared.OwnerServiceInfo69)
  | 0, _ => none
  | fuel + 1, session =>
    match DeviceServiceInfo68 benignDSIEnv session [] with
    | { resp := .okResp osi _, persisted := some session1 } =>
      if osi.IsDone then some [osi]
      else
        match runPagination fuel session1 with
        | none => none
        | some rest => some (osi :: rest)
    | _ => none

/-- The owner responses the source produces for buffered pages `sims`: each
page in enqueue order, `IsDone` exactly on the last one, `IsMoreServiceInfo`
exactly on the others. -/
def pagesFor : List fdoshared.ServiceInfoKV → List fdoshared.OwnerServiceInfo69
  | [] => []
  | [x] => [{ IsMoreServiceInfo := false, IsDone := true, ServiceInfo := some x }]
  | x :: y :: rest =>
    { IsMoreServiceInfo := true, IsDone := false, ServiceInfo := some x } ::
      pagesFor (y :: rest)

end to2

namespace rv

/-- The TO1 session entry created by `Handle30HelloRV` (package-local
`SessionEntry` of the rendezvous service). -/
structure SessionEntry where
  Protocol : fdoshared.FdoProtocol
  NonceTO1Proof : List Nat
  Guid : List Nat
  deriving DecidableEq, Repr

/-- A stored owner-sign resource: the encoded `To0d` blob and the owner's
signed `to1d` redirect. -/
structure OwnerSignEntry where
  To0d : List Nat
  To1d : fdoshared.CoseSignature
  deriving DecidableEq, Repr

inductive RvResp where
  | errResp (code : fdoshared.FdoError) (httpStatus : Nat)
  | okResp (body : List Nat)
  | crash
  deriving DecidableEq, Repr

def RvResp.isOk : RvResp → Bool
  | .okResp _ => true
  | _ => false

structure Rv30Outcome where
  resp : RvResp
  createdSession : Option (String × SessionEntry)
  deriving DecidableEq, Repr

/-- Environment of `Handle30HelloRV`: outcomes of the codec, the owner-sign
database, the nonce generator, the session database and the fuzzing helper. -/
structure Rv30Env where
  phase : testcom.ListenerPhase
  decodeHelloRV : List Nat → Option fdoshared.HelloRV30
  ownersignGet : List Nat → Option OwnerSignEntry
  nonceTO1Proof : List Nat
  newSessionToken : Option String
  cborMarshalAck : fdoshared.HelloRVAck31 → List Nat
  fuzzBytes : List Nat → List Nat
  posCheckExpectedCmd : Bool
  posSaveOk : Bool

/-- The `Handle30HelloRV` handler, from the point where `CheckHeaders` and
the body read have succeeded. -/
def Handle30HelloRV (env : Rv30Env) (bodyBytes : List Nat) : Rv30Outcome :=
  match env.decodeHelloRV bodyBytes with
  | none => { resp := .errResp .MESSAGE_BODY_ERROR 400, createdSession := none }
  | some helloRV30 =>
    match testcom.listenerSelect env.phase with
    | none => { resp := .errResp .INTERNAL_SERVER_ERROR 400, createdSession := none }
    | some fdoTestId =>
      match env.ownersignGet helloRV30.Guid with
      | none => { resp := .errResp .RESOURCE_NOT_FOUND 400, createdSession := none }
      | some _ =>
        let newSessionInst : SessionEntry :=
          { Protocol := .To1, NonceTO1Proof := env.nonceTO1Proof, Guid := helloRV30.Guid }
        match env.newSessionToken with
        | none => { resp := .errResp .INTERNAL_SERVER_ERROR 500, createdSession := none }
        | some sessionId =>
          let helloRVAck31 : fdoshared.HelloRVAck31 :=
            { NonceTO1Proof := env.nonceTO1Proof, EBSigInfo := helloRV30.EASigInfo }
          let ackBytes0 := env.cborMarshalAck helloRVAck31
          let ackBytes :=
            if fdoTestId = .FIDO_LISTENER_DEVICE_30_BAD_ENCODING
            then env.fuzzBytes ackBytes0 else ackBytes0
          if fdoTestId = .FIDO_LISTENER_POSITIVE ∧ env.posCheckExpectedCmd = true ∧
             env.posSaveOk = false then
            { resp := .errResp .INTERNAL_SERVER_ERROR 400,
              createdSession := some (sessionId, newSessionInst) }
          else
            { resp := .okResp ackBytes, createdSession := some (sessionId, newSessionInst) }

structure Rv32Outcome where
  resp : RvResp
  persisted : Option SessionEntry
  deriving DecidableEq, Repr

/-- Environment of `Handle32ProveToRV`: the session lookup result, the codec
outcomes, the owner-sign database, the COSE signature verifier and the
fuzzing helpers. -/
structure Rv32Env where
  getSession : Option SessionEntry
  phase : testcom.ListenerPhase
  decodeCoseSignature : List Nat → Option fdoshared.CoseSignature
  decodeEATPayload : List Nat → Option fdoshared.EATPayloadBase
  ownersignGet : List Nat → Option OwnerSignEntry
  decodeTo0d : List Nat → Option fdoshared.To0d
  GetOVHeader : fdoshared.OwnershipVoucher → Option fdoshared.OVHeader
  VerifyCoseSignatureWithCertificate : fdoshared.CoseSignature → Nat → List (List Nat) → Bool
  fuzzCoseSignature : fdoshared.CoseSignature → fdoshared.CoseSignature
  fuzzBytes : List Nat → List Nat
  cborMarshalCose : fdoshared.CoseSignature → List Nat
  posSaveOk : Bool

/-- The `Handle32ProveToRV` handler, from the point where `CheckHeaders` and
`ExtractAuthorizationHeader` have succeeded.  The handler never writes the
session store, so `persisted` is `none` on every path. -/
def Handle32ProveToRV (env : Rv32Env) (bodyBytes : List Nat) : Rv32Outcome :=
  match env.getSession with
  | none => { resp := .errResp .MESSAGE_BODY_ERROR 401, persisted := none }
  | some session =>
    if session.Protocol ≠ .To1 then
      { resp := .errResp .MESSAGE_BODY_ERROR 401, persisted := none }
    else
      match testcom.listenerSelect env.phase with
      | none => { resp := .errResp .INTERNAL_SERVER_ERROR 400, persisted := none }
      | some fdoTestId =>
        match env.decodeCoseSignature bodyBytes with
        | none => { resp := .errResp .MESSAGE_BODY_ERROR 400, persisted := none }
        | some proveToRV32 =>
          match env.decodeEATPayload proveToRV32.Payload with
          | none => { resp := .errResp .MESSAGE_BODY_ERROR 400, persisted := none }
          | some pb =>
            if pb.EatNonce ≠ session.NonceTO1Proof then
              { resp := .errResp .INVALID_MESSAGE_ERROR 400, persisted := none }
            else
              match env.ownersignGet session.Guid with
              | none => { resp := .errResp .INVALID_MESSAGE_ERROR 500, persisted := none }
              | some savedOwnerSign =>
                match env.decodeTo0d savedOwnerSign.To0d with
                | none => { resp := .errResp .MESSAGE_BODY_ERROR 400, persisted := none }
                | some to0d =>
                  match env.GetOVHeader to0d.OwnershipVoucher with
                  | none => { resp := .errResp .INVALID_MESSAGE_ERROR 400, persisted := none }
                  | some voucherHeader =>
                    match to0d.OwnershipVoucher.OVDevCertChain with
                    | none => { resp := .crash, persisted := none }
                    | some devCertChain =>
                      if env.VerifyCoseSignatureWithCertificate proveToRV32
                          voucherHeader.OVPublicKey.PkType devCertChain = false then
                        { resp := .errResp .INVALID_MESSAGE_ERROR 400, persisted := none }
                      else
                        let to1d :=
                          if fdoTestId = .FIDO_LISTENER_DEVICE_32_BAD_TO1D
                          then env.fuzzCoseSignature savedOwnerSign.To1d
                          else savedOwnerSign.To1d
                        let rvRedirectBytes0 := env.cborMarshalCose to1d
                        let rvRedirectBytes :=
                          if fdoTestId = .FIDO_LISTENER_DEVICE_32_BAD_ENCODING
                          then env.fuzzBytes rvRedirectBytes0 else rvRedirectBytes0
                        if fdoTestId = .FIDO_LISTENER_POSITIVE ∧ env.posSaveOk = false then
                          { resp := .errResp .INTERNAL_SERVER_ERROR 500, persisted := none }
                        else
                          { resp := .okResp rvRedirectBytes, persisted := none }

end rv

namespace testexec

/-- One ownership-voucher entry, opaque to the iteration logic. -/
structure OVEntry where
  entryBytes : List Nat
  deriving DecidableEq, Repr

/-- Response of `GetOVNextEntry62`: the echoed entry number and the entry. -/
structure GetOVNextEntry63 where
  OVEntryNum : Nat
  OVEntry : OVEntry
  deriving DecidableEq, Repr

structure ProveOVHdrPayload61 where
  NumOVEntries : Nat
  OVHeader : List Nat
  HMac : List Nat
  deriving DecidableEq, Repr

/-- Environment of `preExecuteTo2_66`: outcomes of the voucher lookup, the
`HelloDevice60` exchange, the per-index `GetOVNextEntry62` exchange, the
chain verifier, the terminal-key extraction and equality check, and the
final `ProveDevice64` exchange. -/
structure PreExecEnv where
  getVoucherOk : Bool
  helloDevice60 : Option ProveOVHdrPayload61
  GetOVNextEntry62 : Nat → Option GetOVNextEntry63
  VerifyEntries : List OVEntry → List Nat → List Nat → Bool
  GetOVEntryPubKey : OVEntry → List Nat
  ProveOVHdr61PubKey : List Nat
  pubKeyEquals : List Nat → List Nat → Bool
  proveDevice64Ok : Bool

/-- Observable outcome of `preExecuteTo2_66`: the entry indices requested
over the wire in order, whether `ProveDevice64` was reached, and whether the
whole pre-execution succeeded. -/
structure PreExecOutcome where
  requested : List Nat
  proveDeviceCalled : Bool
  ok : Bool
  deriving DecidableEq, Repr

/-- The voucher-entry fetch loop `for i := 0; i < NumOVEntries; i++`:
returns the indices requested and, when every step succeeded with a matching
`OVEntryNum`, the collected entries.  A missing response or an entry-number
mismatch stops the loop with `none`. -/
def fetchEntries (env : PreExecEnv) : Nat → Nat → List Nat × Option (List OVEntry)
  | _, 0 => ([], some [])
  | i, cnt + 1 =>
    match env.GetOVNextEntry62 i with
    | none => ([i], none)
    | some nextEntry =>
      if nextEntry.OVEntryNum ≠ i then ([i], none)
      else
        match fetchEntries env (i + 1) cnt with
        | (tr, rest) => (i :: tr, rest.map (fun es => nextEntry.OVEntry :: es))

/-- `preExecuteTo2_66`: voucher lookup, `HelloDevice60`, the entry fetch
loop, `VerifyEntries` over the full chain, the terminal-entry public-key
comparison against `ProveOVHdr61PubKey`, then `ProveDevice64`.  The
`ovEntries.getLast? = none` case models the out-of-range
`ovEntries[len(ovEntries)-1]` access when no entry was fetched. -/
def preExecuteTo2_66 (env : PreExecEnv) : PreExecOutcome :=
  if env.getVoucherOk = false then
    { requested := [], proveDeviceCalled := false, ok := false }
  else
    match env.helloDevice60 with
    | none => { requested := [], proveDeviceCalled := false, ok := false }
    | some proveOVHdrPayload61 =>
      match fetchEntries env 0 proveOVHdrPayload61.NumOVEntries with
      | (tr, none) => { requested := tr, proveDeviceCalled := false, ok := false }
      | (tr, some ovEntries) =>
        if env.VerifyEntries ovEntries proveOVHdrPayload61.OVHeader
            proveOVHdrPayload61.HMac = false then
          { requested := tr, proveDeviceCalled := false, ok := false }
        else
          match ovEntries.getLast? with
          | none => { requested := tr, proveDeviceCalled := false, ok := false }
          | some lastOvEntry =>
            if env.pubKeyEquals env.ProveOVHdr61PubKey
                (env.GetOVEntryPubKey lastOvEntry) = false then
              { requested := tr, proveDeviceCalled := false, ok := false }
            else
              { requested := tr, proveDeviceCalled := true, ok := env.proveDevice64Ok }

end testexec

section SampleEnvironments

/-- A fault-free, all-collaborators-succeed environment for
`Handle30HelloRV`, used to evaluate the handler at concrete inputs. -/
def sampleRv30Env : rv.Rv30Env :=
  { phase := .inactive
    decodeHelloRV := fun _ => some { Guid := [1], EASigInfo := 2 }
    ownersignGet := fun _ => some { To0d := [9], To1d := { Payload := [4], Signature := [5] } }
    nonceTO1Proof := [7]
    newSessionToken := some "tok"
    cborMarshalAck := fun a => a.NonceTO1Proof
    fuzzBytes := fun b => 0 :: b
    posCheckExpectedCmd := false
    posSaveOk := true }

/-- A fault-free, all-collaborators-succeed environment for
`Handle32ProveToRV`, used to evaluate the handler at concrete inputs. -/
def sampleRv32Env : rv.Rv32Env :=
  { getSession := some { Protocol := .To1, NonceTO1Proof := [7], Guid := [1] }
    phase := .inactive
    decodeCoseSignature := fun _ => some { Payload := [2], Signature := [3] }
    decodeEATPayload := fun _ => some { EatNonce := [7] }
    ownersignGet := fun _ => some { To0d := [9], To1d := { Payload := [4], Signature := [5] } }
    decodeTo0d := fun _ =>
      some { OwnershipVoucher := { OVHeaderTag := [6], OVDevCertChain := some [[8]] } }
    GetOVHeader := fun _ => some { OVPublicKey := { PkType := 1 } }
    VerifyCoseSignatureWithCertificate := fun _ _ _ => true
    fuzzCoseSignature := fun c => { Payload := c.Payload ++ [0], Signature := c.Signature }
    fuzzBytes := fun b => 0 :: b
    cborMarshalCose := fun c => c.Payload ++ c.Signature
    posSaveOk := true }

/-- An all-steps-succeed environment for `preExecuteTo2_66` with a two-entry
voucher, used to evaluate the pre-execution at concrete inputs. -/
def samplePreExecEnv : testexec.PreExecEnv :=
  { getVoucherOk := true
    helloDevice60 := some { NumOVEntries := 2, OVHeader := [1], HMac := [2] }
    GetOVNextEntry62 := fun i => some { OVEntryNum := i, OVEntry := { entryBytes := [i] } }
    VerifyEntries := fun _ _ _ => true
    GetOVEntryPubKey := fun e => e.entryBytes
    ProveOVHdr61PubKey := [1]
    pubKeyEquals := fun _ _ => true
    proveDevice64Ok := true }

end SampleEnvironments

/-! ## Helper lemmas -/

theorem cborUnmarshal_marshal (s : dbs.SessionEntry) :
    dbs.cborUnmarshalSessionEntry (dbs.cborMarshalSessionEntry s) = some s := by
  simp [dbs.cborMarshalSessionEntry, dbs.cborUnmarshalSessionEntry, List.map_map,
    Function.comp_def, Char.ofNat_toNat]

theorem badgerEntryOf_setEntry (st : dbs.BadgerStore) (k : String) (v : List Nat)
    (e : Option Nat) : dbs.badgerEntryOf (dbs.badgerSetEntry st k v e) k =
      some { value := v, expiresAt := e } := by
  simp [dbs.badgerEntryOf, dbs.badgerSetEntry, List.find?]

/-! ## C7 -/

/-- C7 (amended): a session entry is created with the 7-day TTL
(`MAX_SESSION_TIME`), so a session that is never updated becomes
inaccessible once the window has elapsed, and a request whose session lookup
fails is rejected as unauthorized (HTTP 401).  The original claim's "this
expiry holds regardless of how many times the session was updated" is false:
`UpdateSessionEntry` stores via a plain `Set` with no TTL (see the
counterexample). -/
theorem c7_session_expiry_amended
    (st : dbs.BadgerStore) (now t : Nat) (uuid : String) (inst : dbs.SessionEntry)
    (env : rv.Rv32Env) (b : List Nat)
    (hexp : now + dbs.MAX_SESSION_TIME ≤ t)
    (hsess : env.getSession = none) :
    (dbs.NewSessionEntry st now uuid inst).1 = uuid
    ∧ dbs.badgerEntryOf (dbs.NewSessionEntry st now uuid inst).2 ("session-" ++ uuid)
        = some { value := dbs.cborMarshalSessionEntry inst,
                 expiresAt := some (now + dbs.MAX_SESSION_TIME) }
    ∧ dbs.GetSessionEntry (dbs.NewSessionEntry st now uuid inst).2 t uuid = none
    ∧ rv.Handle32ProveToRV env b =
        { resp := .errResp .MESSAGE_BODY_ERROR 401, persisted := none } := by
  refine ⟨rfl, ?_, ?_, ?_⟩
  · exact badgerEntryOf_setEntry ..
  · have h := badgerEntryOf_setEntry st ("session-" ++ uuid)
      (dbs.cborMarshalSessionEntry inst) (some (now + dbs.MAX_SESSION_TIME))
    simp [dbs.GetSessionEntry, dbs.badgerGet, dbs.NewSessionEntry, h]
    omega
  · simp [rv.Handle32ProveToRV, hsess]

/-- C7 witness: the amended theorem applied at a concrete store, entry, time
past the window, and a request with a failed session lookup. -/
theorem c7_session_expiry_amended_witness :
    (0 + dbs.MAX_SESSION_TIME ≤ dbs.MAX_SESSION_TIME)
    ∧ ((dbs.NewSessionEntry [] 0 "u" { Username := "a" }).1 = "u"
      ∧ dbs.badgerEntryOf (dbs.NewSessionEntry [] 0 "u" { Username := "a" }).2 ("session-" ++ "u")
          = some { value := dbs.cborMarshalSessionEntry { Username := "a" },
                   expiresAt := some (0 + dbs.MAX_SESSION_TIME) }
      ∧ dbs.GetSessionEntry (dbs.NewSessionEntry [] 0 "u" { Username := "a" }).2
          dbs.MAX_SESSION_TIME "u" = none
      ∧ rv.Handle32ProveToRV { sampleRv32Env with getSession := none } [] =
          { resp := .errResp .MESSAGE_BODY_ERROR 401, persisted := none }) :=
  ⟨Nat.le_of_eq (Nat.zero_add _),
   c7_session_expiry_amended [] 0 dbs.MAX_SESSION_TIME "u" { Username := "a" }
     { sampleRv32Env with getSession := none } []
     (Nat.le_of_eq (Nat.zero_add _)) rfl⟩

/-- C7 counterexample: create a session at time 0 (TTL stamped), update it
once, and look it up one second after the retention window: the lookup still
succeeds, because `UpdateSessionEntry` rewrote the entry with no TTL — while
the never-updated session is indeed gone.  This refutes "this expiry holds
regardless of how many times the session was updated in the meantime". -/
theorem c7_update_drops_ttl_counterexample :
    dbs.GetSessionEntry
        (dbs.UpdateSessionEntry (dbs.NewSessionEntry [] 0 "u" { Username := "alice" }).2 "u"
          { Username := "alice" })
        (dbs.MAX_SESSION_TIME + 1) "u" = some { Username := "alice" }
    ∧ dbs.GetSessionEntry (dbs.NewSessionEntry [] 0 "u" { Username := "alice" }).2
        (dbs.MAX_SESSION_TIME + 1) "u" = none := by
  constructor <;> decide

/-! ## C10 -/

/-- C10: session store round-trip.  `NewSessionEntry` returns the raw token
(no prefix) and stores the marshalled entry under the key `"session-" +
token`; `GetSessionEntry` reads the same derived key, so before expiry and
with no intervening write it returns the stored value. -/
theorem c10_session_roundtrip
    (st : dbs.BadgerStore) (now now2 : Nat) (uuid : String) (inst : dbs.SessionEntry)
    (h : now2 < now + dbs.MAX_SESSION_TIME) :
    (dbs.NewSessionEntry st now uuid inst).1 = uuid
    ∧ dbs.badgerEntryOf (dbs.NewSessionEntry st now uuid inst).2 ("session-" ++ uuid)
        = some { value := dbs.cborMarshalSessionEntry inst,
                 expiresAt := some (now + dbs.MAX_SESSION_TIME) }
    ∧ dbs.GetSessionEntry (dbs.NewSessionEntry st now uuid inst).2 now2 uuid = some inst := by
  refine ⟨rfl, badgerEntryOf_setEntry .., ?_⟩
  have he := badgerEntryOf_setEntry st ("session-" ++ uuid)
    (dbs.cborMarshalSessionEntry inst) (some (now + dbs.MAX_SESSION_TIME))
  simp [dbs.GetSessionEntry, dbs.badgerGet, dbs.NewSessionEntry, he, h,
    cborUnmarshal_marshal]

/-- C10 witness: the round-trip theorem applied at a concrete store, token
and entry, read back one second after creation. -/
theorem c10_session_roundtrip_witness :
    (1 < 0 + dbs.MAX_SESSION_TIME)
    ∧ ((dbs.NewSessionEntry [] 0 "tok" { Username := "bob" }).1 = "tok"
      ∧ dbs.badgerEntryOf (dbs.NewSessionEntry [] 0 "tok" { Username := "bob" }).2
          ("session-" ++ "tok")
          = some { value := dbs.cborMarshalSessionEntry { Username := "bob" },
                   expiresAt := some (0 + dbs.MAX_SESSION_TIME) }
      ∧ dbs.GetSessionEntry (dbs.NewSessionEntry [] 0 "tok" { Username := "bob" }).2 1 "tok"
          = some { Username := "bob" }) :=
  ⟨by decide, c10_session_roundtrip [] 0 1 "tok" { Username := "bob" } (by decide)⟩

theorem getElem?_append_len {α : Type} (pre : List α) (x : α) (suf : List α) :
    (pre ++ x :: suf)[pre.length]? = some x := by
  induction pre with
  | nil => simp
  | cons a t ih => simpa using ih

/-- One fault-free pagination step: with owner pages `pre ++ x :: rest` and
`x` the next unsent page, the handler answers with page `x`, flags it as the
last one iff `rest` is empty, and persists the advanced session. -/
theorem dsi_step_benign (s : to2.To2Session) (pre rest : List fdoshared.ServiceInfoKV)
    (x : fdoshared.ServiceInfoKV)
    (hsims : s.OwnerSIMs = pre ++ x :: rest)
    (hctr : s.OwnerSIMsSendCounter = pre.length)
    (hprev : s.PrevCMD = fdoshared.TO2_67_OWNER_SERVICE_INFO_READY ∨
             s.PrevCMD = fdoshared.TO2_69_OWNER_SERVICE_INFO) :
    to2.DeviceServiceInfo68 to2.benignDSIEnv s [] =
      if rest = [] then
        { resp := .okResp { IsMoreServiceInfo := false, IsDone := true,
                            ServiceInfo := some x } [],
          persisted := some { s with OwnerSIMsFinishedSending := true,
                                     OwnerSIMsSendCounter := s.OwnerSIMsSendCounter + 1,
                                     PrevCMD := fdoshared.TO2_69_OWNER_SERVICE_INFO } }
      else
        { resp := .okResp { IsMoreServiceInfo := true, IsDone := false,
                            ServiceInfo := some x } [],
          persisted := some { s with OwnerSIMsSendCounter := s.OwnerSIMsSendCounter + 1,
                                     PrevCMD := fdoshared.TO2_69_OWNER_SERVICE_INFO } } := by
  have hget : s.OwnerSIMs[s.OwnerSIMsSendCounter]? = some x := by
    rw [hsims, hctr]; exact getElem?_append_len pre x rest
  have hlen : s.OwnerSIMs.length = pre.length + rest.length + 1 := by
    rw [hsims]; simp only [List.length_append, List.length_cons]; omega
  by_cases hr : rest = []
  · have hcond : s.OwnerSIMsSendCounter + 1 ≥ s.OwnerSIMs.length := by
      rw [hctr, hlen, hr]; simp
    rcases hprev with h | h <;>
      simp [to2.DeviceServiceInfo68, to2.benignDSIEnv, testcom.listenerSelect,
        to2.deviceServiceInfo68Body, h, to2.serviceInfoStep, to2.doneDeviceServiceInfo,
        hget, hcond, hr, fdoshared.TO2_67_OWNER_SERVICE_INFO_READY,
        fdoshared.TO2_69_OWNER_SERVICE_INFO]
  · have hcond : ¬(s.OwnerSIMsSendCounter + 1 ≥ s.OwnerSIMs.length) := by
      rw [hctr, hlen]
      have ht : rest.length ≠ 0 := fun h0 => hr (List.length_eq_zero.mp h0)
      omega
    rcases hprev with h | h <;>
      simp [to2.DeviceServiceInfo68, to2.benignDSIEnv, testcom.listenerSelect,
        to2.deviceServiceInfo68Body, h, to2.serviceInfoStep, to2.doneDeviceServiceInfo,
        hget, hcond, hr, fdoshared.TO2_67_OWNER_SERVICE_INFO_READY,
        fdoshared.TO2_69_OWNER_SERVICE_INFO]

/-- The pagination driver, started anywhere in the middle of the owner
page sequence, yields exactly the remaining pages. -/
theorem runPagination_go (suf : List fdoshared.ServiceInfoKV) :
    ∀ (pre : List fdoshared.ServiceInfoKV) (s : to2.To2Session),
      suf ≠ [] →
      s.OwnerSIMs = pre ++ suf →
      s.OwnerSIMsSendCounter = pre.length →
      (s.PrevCMD = fdoshared.TO2_67_OWNER_SERVICE_INFO_READY ∨
       s.PrevCMD = fdoshared.TO2_69_OWNER_SERVICE_INFO) →
      to2.runPagination suf.length s = some (to2.pagesFor suf) := by
  induction suf with
  | nil => intro pre s h _ _ _; exact absurd rfl h
  | cons x rest ih =>
    intro pre s _ hsims hctr hprev
    have hstep := dsi_step_benign s pre rest x hsims hctr hprev
    cases rest with
    | nil =>
      rw [if_pos rfl] at hstep
      simp only [List.length_cons, List.length_nil]
      rw [to2.runPagination, hstep]
      simp [to2.pagesFor]
    | cons y t =>
      rw [if_neg (List.cons_ne_nil y t)] at hstep
      have hrec := ih (pre ++ [x])
        { s with OwnerSIMsSendCounter := s.OwnerSIMsSendCounter + 1,
                 PrevCMD := fdoshared.TO2_69_OWNER_SERVICE_INFO }
        (List.cons_ne_nil y t)
        (by simp [hsims])
        (by simp [hctr])
        (Or.inr rfl)
      simp only [List.length_cons] at hrec ⊢
      rw [to2.runPagination, hstep]
      simp [hrec, to2.pagesFor]

theorem pagesFor_map (sims : List fdoshared.ServiceInfoKV) :
    (to2.pagesFor sims).map (fun p => p.ServiceInfo) = sims.map some := by
  induction sims with
  | nil => rfl
  | cons x rest ih =>
    cases rest with
    | nil => rfl
    | cons y t => simp [to2.pagesFor] at ih ⊢; exact ih

theorem pagesFor_flags (sims : List fdoshared.ServiceInfoKV) :
    (to2.pagesFor sims).map (fun p => (p.IsDone, p.IsMoreServiceInfo)) =
      (List.range sims.length).map
        (fun i => (decide (i + 1 = sims.length), decide (i + 1 < sims.length))) := by
  induction sims with
  | nil => rfl
  | cons x rest ih =>
    cases rest with
    | nil => rfl
    | cons y t =>
      rw [to2.pagesFor, List.map_cons, List.length_cons, List.range_succ_eq_map,
        List.map_cons, List.map_map]
      simp only [List.cons.injEq]
      refine ⟨?_, ?_⟩
      · have h1 : decide (0 + 1 = (y :: t).length + 1) = false :=
          decide_eq_false (by simp)
        have h2 : decide (0 + 1 < (y :: t).length + 1) = true :=
          decide_eq_true (by simp)
        simp [h1, h2]
      · rw [ih]
        refine List.map_congr_left (fun i _ => ?_)
        have h1 : decide (i + 1 + 1 = (y :: t).length + 1) =
            decide (i + 1 = (y :: t).length) := decide_eq_decide.mpr (by omega)
        have h2 : decide (i + 1 + 1 < (y :: t).length + 1) =
            decide (i + 1 < (y :: t).length) := decide_eq_decide.mpr (by omega)
        simp only [Function.comp_apply, Nat.succ_eq_add_one, h1, h2]

/-! ## C2 -/

/-- C2 (amended: for page counts n ≥ 1; at n = 0 the handler's owner page
indexing is out of range and the step crashes, see the counterexample): the
repeated `DeviceServiceInfo68`/`OwnerServiceInfo69` exchange over buffered
owner pages `sims` delivers exactly the buffered pages in enqueue order —
no page dropped, duplicated or reordered — and the response carrying the
final page, and only that response, sets `IsDone = true` and
`IsMoreServiceInfo = false`; for n = 1 both completion flags are set on the
first and only page. -/
theorem c2_pagination_delivers_all_pages (sims : List fdoshared.ServiceInfoKV)
    (hne : sims ≠ []) :
    to2.runPagination sims.length (to2.initialSIOSession sims) = some (to2.pagesFor sims)
    ∧ (to2.pagesFor sims).map (fun p => p.ServiceInfo) = sims.map some
    ∧ (to2.pagesFor sims).map (fun p => (p.IsDone, p.IsMoreServiceInfo)) =
        (List.range sims.length).map
          (fun i => (decide (i + 1 = sims.length), decide (i + 1 < sims.length))) :=
  ⟨runPagination_go sims [] (to2.initialSIOSession sims) hne rfl rfl (Or.inl rfl),
   pagesFor_map sims, pagesFor_flags sims⟩

/-- C2 witness: with two buffered owner pages the exchange delivers both
pages in order; the first response carries more-pending, the second carries
done. -/
theorem c2_pagination_delivers_all_pages_witness :
    (([[1], [2]] : List fdoshared.ServiceInfoKV) ≠ [])
    ∧ (to2.runPagination ([[1], [2]] : List fdoshared.ServiceInfoKV).length
        (to2.initialSIOSession [[1], [2]]) = some (to2.pagesFor [[1], [2]])
      ∧ (to2.pagesFor [[1], [2]]).map (fun p => p.ServiceInfo) =
          ([[1], [2]] : List fdoshared.ServiceInfoKV).map some
      ∧ (to2.pagesFor [[1], [2]]).map (fun p => (p.IsDone, p.IsMoreServiceInfo)) =
          (List.range ([[1], [2]] : List fdoshared.ServiceInfoKV).length).map
            (fun i => (decide (i + 1 = ([[1], [2]] : List fdoshared.ServiceInfoKV).length),
                       decide (i + 1 < ([[1], [2]] : List fdoshared.ServiceInfoKV).length)))) :=
  ⟨by decide, c2_pagination_delivers_all_pages [[1], [2]] (by decide)⟩

/-- C2 counterexample: with zero buffered owner pages the very first
exchange step evaluates `OwnerSIMs[OwnerSIMsSendCounter]` on an empty
sequence — a crash, not a response — so the exchange cannot deliver "exactly
the 0 buffered pages" and the claim fails at n = 0. -/
theorem c2_zero_pages_counterexample :
    to2.DeviceServiceInfo68 to2.benignDSIEnv (to2.initialSIOSession []) [] =
      { resp := .crash, persisted := none }
    ∧ to2.runPagination 1 (to2.initialSIOSession []) = none := by
  constructor <;> rfl

/-- The fetch loop requests a contiguous run of indices starting at its
start index. -/
theorem fetchEntries_trace (env : testexec.PreExecEnv) :
    ∀ (n i : Nat), ∃ k, (testexec.fetchEntries env i n).1 = List.range' i k ∧ k ≤ n := by
  intro n
  induction n with
  | zero => intro i; exact ⟨0, rfl, Nat.le_refl 0⟩
  | succ m ih =>
    intro i
    cases hg : env.GetOVNextEntry62 i with
    | none =>
      refine ⟨1, ?_, by omega⟩
      simp [testexec.fetchEntries, hg, List.range'_succ]
    | some e =>
      by_cases hnum : e.OVEntryNum = i
      · obtain ⟨k, hk, hkle⟩ := ih (i + 1)
        cases hp : testexec.fetchEntries env (i + 1) m with
        | mk tr rest =>
          rw [hp] at hk
          refine ⟨k + 1, ?_, by omega⟩
          simp [testexec.fetchEntries, hg, hnum, hp, List.range'_succ, hk]
      · refine ⟨1, ?_, by omega⟩
        simp [testexec.fetchEntries, hg, hnum, List.range'_succ]

/-- When the fetch loop succeeds, it fetched exactly one entry per index,
each returned with the matching entry number, in order. -/
theorem fetchEntries_success (env : testexec.PreExecEnv) :
    ∀ (n i : Nat) (ents : List testexec.OVEntry),
      (testexec.fetchEntries env i n).2 = some ents →
      ents.length = n ∧
      (testexec.fetchEntries env i n).1 = List.range' i n ∧
      ∀ j, j < n → ∃ e, env.GetOVNextEntry62 (i + j) = some e ∧ e.OVEntryNum = i + j ∧
        ents.get? j = some e.OVEntry := by
  intro n
  induction n with
  | zero =>
    intro i ents h
    simp [testexec.fetchEntries] at h
    exact ⟨by simp [← h], rfl, fun j hj => absurd hj (Nat.not_lt_zero j)⟩
  | succ m ih =>
    intro i ents h
    cases hg : env.GetOVNextEntry62 i with
    | none => simp [testexec.fetchEntries, hg] at h
    | some e =>
      by_cases hnum : e.OVEntryNum = i
      · cases hp : testexec.fetchEntries env (i + 1) m with
        | mk tr rest =>
          rw [testexec.fetchEntries] at h
          simp only [hg, hnum, ne_eq, not_true_eq_false, if_false, hp] at h
          cases rest with
          | none => simp at h
          | some ents1 =>
            simp at h
            obtain ⟨hlen1, htr1, hall1⟩ := ih (i + 1) ents1 (by rw [hp])
            rw [hp] at htr1
            have htr2 : tr = List.range' (i + 1) m := htr1
            refine ⟨?_, ?_, ?_⟩
            · rw [← h]; simp [hlen1]
            · rw [testexec.fetchEntries]
              simp only [hg, hnum, ne_eq, not_true_eq_false, if_false, hp]
              simp [htr2, List.range'_succ]
            · intro j hj
              cases j with
              | zero =>
                refine ⟨e, ?_, ?_, ?_⟩
                · simpa using hg
                · simpa using hnum
                · rw [← h]; rfl
              | succ jj =>
                obtain ⟨e2, h1, h2, h3⟩ := hall1 jj (Nat.lt_of_succ_lt_succ hj)
                have hidx : i + 1 + jj = i + (jj + 1) := by omega
                rw [hidx] at h1 h2
                refine ⟨e2, h1, h2, ?_⟩
                rw [← h]
                simpa using h3
      · rw [testexec.fetchEntries] at h
        simp [hg, hnum] at h

/-! ## C6 -/

/-- C6: `preExecuteTo2_66` requests voucher entries by strictly increasing
index starting at 0; a missing or out-of-sequence entry response aborts the
run before `ProveDevice64`; on a successful fetch every entry's number
equals its requested index; and `ProveDevice64` is reached only after the
full entry chain passed `VerifyEntries` against the voucher header and
header HMAC and the terminal entry's committed public key compared equal to
the owner's `ProveOVHdr61PubKey`. -/
theorem c6_voucher_entry_iteration
    (env : testexec.PreExecEnv) (p : testexec.ProveOVHdrPayload61)
    (hv : env.getVoucherOk = true)
    (hh : env.helloDevice60 = some p) :
    (testexec.preExecuteTo2_66 env).requested =
      List.range (testexec.preExecuteTo2_66 env).requested.length
    ∧ ((testexec.fetchEntries env 0 p.NumOVEntries).2 = none →
        (testexec.preExecuteTo2_66 env).proveDeviceCalled = false ∧
        (testexec.preExecuteTo2_66 env).ok = false)
    ∧ (∀ ents, (testexec.fetchEntries env 0 p.NumOVEntries).2 = some ents →
        ents.length = p.NumOVEntries ∧
        ∀ j, j < p.NumOVEntries → ∃ e, env.GetOVNextEntry62 j = some e ∧
          e.OVEntryNum = j ∧ ents.get? j = some e.OVEntry)
    ∧ ((testexec.preExecuteTo2_66 env).proveDeviceCalled = true →
        ∃ ents, (testexec.fetchEntries env 0 p.NumOVEntries).2 = some ents ∧
          env.VerifyEntries ents p.OVHeader p.HMac = true ∧
          ∃ lastE, ents.getLast? = some lastE ∧
            env.pubKeyEquals env.ProveOVHdr61PubKey (env.GetOVEntryPubKey lastE) = true) := by
  cases hp : testexec.fetchEntries env 0 p.NumOVEntries with
  | mk tr fet =>
    obtain ⟨k, hk, hkn⟩ := fetchEntries_trace env p.NumOVEntries 0
    rw [hp] at hk
    have hk2 : tr = List.range' 0 k := hk
    cases fet with
    | none =>
      have hout : testexec.preExecuteTo2_66 env =
          { requested := tr, proveDeviceCalled := false, ok := false } := by
        simp [testexec.preExecuteTo2_66, hv, hh, hp]
      refine ⟨?_, fun _ => by rw [hout]; exact ⟨rfl, rfl⟩, fun ents hents => ?_,
        fun hpd => ?_⟩
      · rw [hout]
        show tr = List.range tr.length
        rw [hk2, List.length_range', List.range_eq_range']
      · exact absurd hents (by simp)
      · rw [hout] at hpd; exact absurd hpd (by simp)
    | some ents0 =>
      obtain ⟨hlen0, htr0, hall0⟩ :=
        fetchEntries_success env p.NumOVEntries 0 ents0 (by rw [hp])
      rw [hp] at htr0
      have htr2 : tr = List.range' 0 p.NumOVEntries := htr0
      have hreq : tr = List.range tr.length := by
        rw [htr2, List.length_range', List.range_eq_range']
      have hC : ∀ ents, ((tr, some ents0) : List Nat × Option (List testexec.OVEntry)).2 =
            some ents →
          ents.length = p.NumOVEntries ∧
          ∀ j, j < p.NumOVEntries → ∃ e, env.GetOVNextEntry62 j = some e ∧
            e.OVEntryNum = j ∧ ents.get? j = some e.OVEntry := by
        intro ents hents
        have hee : ents0 = ents := by simpa using hents
        subst hee
        exact ⟨hlen0, fun j hj => by simpa using hall0 j hj⟩
      have hB : ((tr, some ents0) : List Nat × Option (List testexec.OVEntry)).2 = none →
          (testexec.preExecuteTo2_66 env).proveDeviceCalled = false ∧
          (testexec.preExecuteTo2_66 env).ok = false := by
        intro hnone
        exact absurd hnone (by simp)
      cases hver : env.VerifyEntries ents0 p.OVHeader p.HMac with
      | false =>
        have hout : testexec.preExecuteTo2_66 env =
            { requested := tr, proveDeviceCalled := false, ok := false } := by
          simp [testexec.preExecuteTo2_66, hv, hh, hp, hver]
        refine ⟨by rw [hout]; exact hreq, hB, hC, fun hpd => ?_⟩
        rw [hout] at hpd; exact absurd hpd (by simp)
      | true =>
        cases hlast : ents0.getLast? with
        | none =>
          have hout : testexec.preExecuteTo2_66 env =
              { requested := tr, proveDeviceCalled := false, ok := false } := by
            simp [testexec.preExecuteTo2_66, hv, hh, hp, hver, hlast]
          refine ⟨by rw [hout]; exact hreq, hB, hC, fun hpd => ?_⟩
          rw [hout] at hpd; exact absurd hpd (by simp)
        | some lastE =>
          cases heqk : env.pubKeyEquals env.ProveOVHdr61PubKey
              (env.GetOVEntryPubKey lastE) with
          | false =>
            have hout : testexec.preExecuteTo2_66 env =
                { requested := tr, proveDeviceCalled := false, ok := false } := by
              simp [testexec.preExecuteTo2_66, hv, hh, hp, hver, hlast, heqk]
            refine ⟨by rw [hout]; exact hreq, hB, hC, fun hpd => ?_⟩
            rw [hout] at hpd; exact absurd hpd (by simp)
          | true =>
            have hout : testexec.preExecuteTo2_66 env =
                { requested := tr, proveDeviceCalled := true,
                  ok := env.proveDevice64Ok } := by
              simp [testexec.preExecuteTo2_66, hv, hh, hp, hver, hlast, heqk]
            refine ⟨by rw [hout]; exact hreq, hB, hC, fun _ => ?_⟩
            exact ⟨ents0, rfl, hver, lastE, hlast, heqk⟩

/-- C6 witness: the iteration theorem applied at a concrete two-entry
all-checks-pass environment. -/
theorem c6_voucher_entry_iteration_witness :
    (samplePreExecEnv.getVoucherOk = true
      ∧ samplePreExecEnv.helloDevice60 =
          some { NumOVEntries := 2, OVHeader := [1], HMac := [2] })
    ∧ ((testexec.preExecuteTo2_66 samplePreExecEnv).requested =
        List.range (testexec.preExecuteTo2_66 samplePreExecEnv).requested.length
      ∧ ((testexec.fetchEntries samplePreExecEnv 0
            ({ NumOVEntries := 2, OVHeader := [1], HMac := [2] } :
              testexec.ProveOVHdrPayload61).NumOVEntries).2 = none →
          (testexec.preExecuteTo2_66 samplePreExecEnv).proveDeviceCalled = false ∧
          (testexec.preExecuteTo2_66 samplePreExecEnv).ok = false)
      ∧ (∀ ents, (testexec.fetchEntries samplePreExecEnv 0
            ({ NumOVEntries := 2, OVHeader := [1], HMac := [2] } :
              testexec.ProveOVHdrPayload61).NumOVEntries).2 = some ents →
          ents.length = ({ NumOVEntries := 2, OVHeader := [1], HMac := [2] } :
              testexec.ProveOVHdrPayload61).NumOVEntries ∧
          ∀ j, j < ({ NumOVEntries := 2, OVHeader := [1], HMac := [2] } :
              testexec.ProveOVHdrPayload61).NumOVEntries →
            ∃ e, samplePreExecEnv.GetOVNextEntry62 j = some e ∧
              e.OVEntryNum = j ∧ ents.get? j = some e.OVEntry)
      ∧ ((testexec.preExecuteTo2_66 samplePreExecEnv).proveDeviceCalled = true →
          ∃ ents, (testexec.fetchEntries samplePreExecEnv 0
              ({ NumOVEntries := 2, OVHeader := [1], HMac := [2] } :
                testexec.ProveOVHdrPayload61).NumOVEntries).2 = some ents ∧
            samplePreExecEnv.VerifyEntries ents
              ({ NumOVEntries := 2, OVHeader := [1], HMac := [2] } :
                testexec.ProveOVHdrPayload61).OVHeader
              ({ NumOVEntries := 2, OVHeader := [1], HMac := [2] } :
                testexec.ProveOVHdrPayload61).HMac = true ∧
            ∃ lastE, ents.getLast? = some lastE ∧
              samplePreExecEnv.pubKeyEquals samplePreExecEnv.ProveOVHdr61PubKey
                (samplePreExecEnv.GetOVEntryPubKey lastE) = true)) :=
  ⟨⟨rfl, rfl⟩,
   c6_voucher_entry_iteration samplePreExecEnv
     { NumOVEntries := 2, OVHeader := [1], HMac := [2] } rfl rfl⟩

/-! ## C8 -/

/-- C8 (amended: the handler signals resource-not-found in the FDO error
code but with HTTP status 400, not 404): when the device identifier of a
`HelloRV30` request has no stored owner-sign resource, the handler responds
with FDO error code `RESOURCE_NOT_FOUND` and HTTP status 400, and creates no
session. -/
theorem c8_hellorv_unknown_guid
    (env : rv.Rv30Env) (bodyBytes : List Nat) (hello : fdoshared.HelloRV30)
    (tid : testcom.FDOTestID)
    (hdec : env.decodeHelloRV bodyBytes = some hello)
    (hphase : testcom.listenerSelect env.phase = some tid)
    (hget : env.ownersignGet hello.Guid = none) :
    rv.Handle30HelloRV env bodyBytes =
      { resp := .errResp .RESOURCE_NOT_FOUND 400, createdSession := none } := by
  simp [rv.Handle30HelloRV, hdec, hphase, hget]

/-- C8 witness: the amended theorem applied at a concrete request whose
device identifier has no stored owner-sign resource. -/
theorem c8_hellorv_unknown_guid_witness :
    (({ sampleRv30Env with ownersignGet := fun _ => none } : rv.Rv30Env).decodeHelloRV []
        = some { Guid := [1], EASigInfo := 2 }
      ∧ testcom.listenerSelect ({ sampleRv30Env with ownersignGet := fun _ => none } :
          rv.Rv30Env).phase = some .NULL_TEST
      ∧ ({ sampleRv30Env with ownersignGet := fun _ => none } : rv.Rv30Env).ownersignGet
          ({ Guid := [1], EASigInfo := 2 } : fdoshared.HelloRV30).Guid = none)
    ∧ rv.Handle30HelloRV { sampleRv30Env with ownersignGet := fun _ => none } [] =
        { resp := .errResp .RESOURCE_NOT_FOUND 400, createdSession := none } :=
  ⟨⟨rfl, rfl, rfl⟩,
   c8_hellorv_unknown_guid { sampleRv30Env with ownersignGet := fun _ => none } []
     { Guid := [1], EASigInfo := 2 } .NULL_TEST rfl rfl rfl⟩

/-- C8 counterexample: at a concrete request with no stored voucher/resource
the handler's HTTP status is 400, not the claimed 404. -/
theorem c8_http_status_counterexample :
    rv.Handle30HelloRV { sampleRv30Env with ownersignGet := fun _ => none } [] =
      { resp := .errResp .RESOURCE_NOT_FOUND 400, createdSession := none }
    ∧ (400 : Nat) ≠ 404 :=
  ⟨rfl, by decide⟩

/-! ## C4 -/

/-- C4: `Handle32ProveToRV` serves the redirect only when the embedded EAT
nonce equals the session's `NonceTO1Proof` byte for byte; any mismatch
yields the hard validation error (`INVALID_MESSAGE_ERROR`, HTTP 400) with
nothing persisted and no redirect served. -/
theorem c4_provetorv_nonce_check
    (env : rv.Rv32Env) (bodyBytes : List Nat) (session : rv.SessionEntry)
    (cose : fdoshared.CoseSignature) (pb : fdoshared.EATPayloadBase)
    (tid : testcom.FDOTestID)
    (hsess : env.getSession = some session)
    (hproto : session.Protocol = .To1)
    (hphase : testcom.listenerSelect env.phase = some tid)
    (hcose : env.decodeCoseSignature bodyBytes = some cose)
    (heat : env.decodeEATPayload cose.Payload = some pb) :
    (pb.EatNonce ≠ session.NonceTO1Proof →
      rv.Handle32ProveToRV env bodyBytes =
        { resp := .errResp .INVALID_MESSAGE_ERROR 400, persisted := none })
    ∧ ((rv.Handle32ProveToRV env bodyBytes).resp.isOk = true →
      pb.EatNonce = session.NonceTO1Proof) := by
  have herr : pb.EatNonce ≠ session.NonceTO1Proof →
      rv.Handle32ProveToRV env bodyBytes =
        { resp := .errResp .INVALID_MESSAGE_ERROR 400, persisted := none } := by
    intro hne
    simp [rv.Handle32ProveToRV, hsess, hproto, hphase, hcose, heat, hne]
  refine ⟨herr, fun hok => ?_⟩
  by_contra hne
  rw [herr hne] at hok
  simp [rv.RvResp.isOk] at hok

/-- C4 witness: with a request whose embedded nonce differs from the
session's issued nonce, the handler returns exactly the 400 invalid-message
error. -/
theorem c4_provetorv_nonce_check_witness :
    (({ sampleRv32Env with decodeEATPayload := fun _ => some { EatNonce := [8] } } :
        rv.Rv32Env).getSession = some { Protocol := .To1, NonceTO1Proof := [7], Guid := [1] }
      ∧ ({ Protocol := .To1, NonceTO1Proof := [7], Guid := [1] } :
          rv.SessionEntry).Protocol = .To1
      ∧ ([8] : List Nat) ≠ [7])
    ∧ rv.Handle32ProveToRV
        { sampleRv32Env with decodeEATPayload := fun _ => some { EatNonce := [8] } } [] =
        { resp := .errResp .INVALID_MESSAGE_ERROR 400, persisted := none } :=
  ⟨⟨rfl, rfl, by decide⟩,
   (c4_provetorv_nonce_check
      { sampleRv32Env with decodeEATPayload := fun _ => some { EatNonce := [8] } } []
      { Protocol := .To1, NonceTO1Proof := [7], Guid := [1] }
      { Payload := [2], Signature := [3] } { EatNonce := [8] } .NULL_TEST
      rfl rfl rfl rfl rfl).1 (by decide)⟩

/-! ## C5 -/

/-- C5: past the nonce check, `Handle32ProveToRV` resolves the stored
owner-sign resource by the session's device identifier, decodes its `To0d`,
extracts the voucher header and the voucher's committed device certificate
chain, and verifies the request's COSE signature against that chain: a
failed verification aborts with the 400 validation error and nothing served,
and an `okResp` redirect is only produced when that verification succeeded
(fails closed). -/
theorem c5_provetorv_voucher_chain_verification
    (env : rv.Rv32Env) (bodyBytes : List Nat) (session : rv.SessionEntry)
    (cose : fdoshared.CoseSignature) (pb : fdoshared.EATPayloadBase)
    (ownerSign : rv.OwnerSignEntry) (to0d : fdoshared.To0d) (hdr : fdoshared.OVHeader)
    (chain : List (List Nat)) (tid : testcom.FDOTestID)
    (hsess : env.getSession = some session)
    (hproto : session.Protocol = .To1)
    (hphase : testcom.listenerSelect env.phase = some tid)
    (hcose : env.decodeCoseSignature bodyBytes = some cose)
    (heat : env.decodeEATPayload cose.Payload = some pb)
    (hnonce : pb.EatNonce = session.NonceTO1Proof)
    (hos : env.ownersignGet session.Guid = some ownerSign)
    (hto0d : env.decodeTo0d ownerSign.To0d = some to0d)
    (hhdr : env.GetOVHeader to0d.OwnershipVoucher = some hdr)
    (hchain : to0d.OwnershipVoucher.OVDevCertChain = some chain) :
    (env.VerifyCoseSignatureWithCertificate cose hdr.OVPublicKey.PkType chain = false →
      rv.Handle32ProveToRV env bodyBytes =
        { resp := .errResp .INVALID_MESSAGE_ERROR 400, persisted := none })
    ∧ ((rv.Handle32ProveToRV env bodyBytes).resp.isOk = true →
      env.VerifyCoseSignatureWithCertificate cose hdr.OVPublicKey.PkType chain = true) := by
  have herr : env.VerifyCoseSignatureWithCertificate cose hdr.OVPublicKey.PkType chain =
      false →
      rv.Handle32ProveToRV env bodyBytes =
        { resp := .errResp .INVALID_MESSAGE_ERROR 400, persisted := none } := by
    intro hv
    simp [rv.Handle32ProveToRV, hsess, hproto, hphase, hcose, heat, hnonce, hos, hto0d,
      hhdr, hchain, hv]
  refine ⟨herr, fun hok => ?_⟩
  cases hv : env.VerifyCoseSignatureWithCertificate cose hdr.OVPublicKey.PkType chain with
  | false => rw [herr hv] at hok; simp [rv.RvResp.isOk] at hok
  | true => rfl

/-- C5 witness: with a verifier that rejects, the handler returns exactly
the 400 validation error and never the redirect. -/
theorem c5_provetorv_voucher_chain_verification_witness :
    (({ sampleRv32Env with VerifyCoseSignatureWithCertificate := fun _ _ _ => false } :
        rv.Rv32Env).VerifyCoseSignatureWithCertificate { Payload := [2], Signature := [3] }
        ({ OVPublicKey := { PkType := 1 } } : fdoshared.OVHeader).OVPublicKey.PkType [[8]]
        = false)
    ∧ rv.Handle32ProveToRV
        { sampleRv32Env with VerifyCoseSignatureWithCertificate := fun _ _ _ => false } [] =
        { resp := .errResp .INVALID_MESSAGE_ERROR 400, persisted := none } :=
  ⟨rfl,
   (c5_provetorv_voucher_chain_verification
      { sampleRv32Env with VerifyCoseSignatureWithCertificate := fun _ _ _ => false } []
      { Protocol := .To1, NonceTO1Proof := [7], Guid := [1] }
      { Payload := [2], Signature := [3] } { EatNonce := [7] }
      { To0d := [9], To1d := { Payload := [4], Signature := [5] } }
      { OwnershipVoucher := { OVHeaderTag := [6], OVDevCertChain := some [[8]] } }
      { OVPublicKey := { PkType := 1 } } [[8]] .NULL_TEST
      rfl rfl rfl rfl rfl rfl rfl rfl rfl rfl).1 rfl⟩

/-! ## C3 -/

/-- C3: structural fault injection is output-only.  For `Handle30HelloRV`
with the bad-encoding fault and for `Handle32ProveToRV` with the bad-to1d
and bad-encoding faults, the state the handler persists (created session /
persisted session) is identical to the fault-free baseline of the same step,
and the faulted response body is exactly the fault mutation applied to
the legitimately computed outbound bytes. -/
theorem c3_fault_injection_output_only
    (env30 : rv.Rv30Env) (b30 : List Nat) (hello : fdoshared.HelloRV30)
    (os30 : rv.OwnerSignEntry) (tok : String)
    (env32 : rv.Rv32Env) (b32 : List Nat) (session : rv.SessionEntry)
    (cose : fdoshared.CoseSignature) (pb : fdoshared.EATPayloadBase)
    (os32 : rv.OwnerSignEntry) (to0d : fdoshared.To0d) (hdr : fdoshared.OVHeader)
    (chain : List (List Nat))
    (hdec30 : env30.decodeHelloRV b30 = some hello)
    (hos30 : env30.ownersignGet hello.Guid = some os30)
    (htok : env30.newSessionToken = some tok)
    (hsess : env32.getSession = some session)
    (hproto : session.Protocol = .To1)
    (hcose : env32.decodeCoseSignature b32 = some cose)
    (heat : env32.decodeEATPayload cose.Payload = some pb)
    (hnonce : pb.EatNonce = session.NonceTO1Proof)
    (hos32 : env32.ownersignGet session.Guid = some os32)
    (hto0d : env32.decodeTo0d os32.To0d = some to0d)
    (hhdr : env32.GetOVHeader to0d.OwnershipVoucher = some hdr)
    (hchain : to0d.OwnershipVoucher.OVDevCertChain = some chain)
    (hverify : env32.VerifyCoseSignatureWithCertificate cose hdr.OVPublicKey.PkType chain
        = true) :
    (rv.Handle30HelloRV { env30 with
        phase := .active true .FIDO_LISTENER_DEVICE_30_BAD_ENCODING } b30).createdSession =
      (rv.Handle30HelloRV { env30 with phase := .active true .NULL_TEST } b30).createdSession
    ∧ (rv.Handle30HelloRV { env30 with phase := .active true .NULL_TEST } b30).resp =
        .okResp (env30.cborMarshalAck
          { NonceTO1Proof := env30.nonceTO1Proof, EBSigInfo := hello.EASigInfo })
    ∧ (rv.Handle30HelloRV { env30 with
        phase := .active true .FIDO_LISTENER_DEVICE_30_BAD_ENCODING } b30).resp =
        .okResp (env30.fuzzBytes (env30.cborMarshalAck
          { NonceTO1Proof := env30.nonceTO1Proof, EBSigInfo := hello.EASigInfo }))
    ∧ (rv.Handle32ProveToRV { env32 with
        phase := .active true .FIDO_LISTENER_DEVICE_32_BAD_ENCODING } b32).persisted =
      (rv.Handle32ProveToRV { env32 with phase := .active true .NULL_TEST } b32).persisted
    ∧ (rv.Handle32ProveToRV { env32 with
        phase := .active true .FIDO_LISTENER_DEVICE_32_BAD_TO1D } b32).persisted =
      (rv.Handle32ProveToRV { env32 with phase := .active true .NULL_TEST } b32).persisted
    ∧ (rv.Handle32ProveToRV { env32 with phase := .active true .NULL_TEST } b32).resp =
        .okResp (env32.cborMarshalCose os32.To1d)
    ∧ (rv.Handle32ProveToRV { env32 with
        phase := .active true .FIDO_LISTENER_DEVICE_32_BAD_ENCODING } b32).resp =
        .okResp (env32.fuzzBytes (env32.cborMarshalCose os32.To1d))
    ∧ (rv.Handle32ProveToRV { env32 with
        phase := .active true .FIDO_LISTENER_DEVICE_32_BAD_TO1D } b32).resp =
        .okResp (env32.cborMarshalCose (env32.fuzzCoseSignature os32.To1d)) := by
  refine ⟨?_, ?_, ?_, ?_, ?_, ?_, ?_, ?_⟩ <;>
    simp [rv.Handle30HelloRV, rv.Handle32ProveToRV, testcom.listenerSelect, hdec30, hos30,
      htok, hsess, hproto, hcose, heat, hnonce, hos32, hto0d, hhdr, hchain, hverify]

/-- C3 witness: the output-only theorem applied at concrete fault-free-able
environments for both handlers. -/
theorem c3_fault_injection_output_only_witness :
    (rv.Handle30HelloRV { sampleRv30Env with
        phase := .active true .FIDO_LISTENER_DEVICE_30_BAD_ENCODING } []).createdSession =
      (rv.Handle30HelloRV { sampleRv30Env with
        phase := .active true .NULL_TEST } []).createdSession
    ∧ (rv.Handle30HelloRV { sampleRv30Env with phase := .active true .NULL_TEST } []).resp =
        .okResp (sampleRv30Env.cborMarshalAck
          { NonceTO1Proof := sampleRv30Env.nonceTO1Proof, EBSigInfo := 2 })
    ∧ (rv.Handle30HelloRV { sampleRv30Env with
        phase := .active true .FIDO_LISTENER_DEVICE_30_BAD_ENCODING } []).resp =
        .okResp (sampleRv30Env.fuzzBytes (sampleRv30Env.cborMarshalAck
          { NonceTO1Proof := sampleRv30Env.nonceTO1Proof, EBSigInfo := 2 }))
    ∧ (rv.Handle32ProveToRV { sampleRv32Env with
        phase := .active true .FIDO_LISTENER_DEVICE_32_BAD_ENCODING } []).persisted =
      (rv.Handle32ProveToRV { sampleRv32Env with phase := .active true .NULL_TEST } []).persisted
    ∧ (rv.Handle32ProveToRV { sampleRv32Env with
        phase := .active true .FIDO_LISTENER_DEVICE_32_BAD_TO1D } []).persisted =
      (rv.Handle32ProveToRV { sampleRv32Env with phase := .active true .NULL_TEST } []).persisted
    ∧ (rv.Handle32ProveToRV { sampleRv32Env with phase := .active true .NULL_TEST } []).resp =
        .okResp (sampleRv32Env.cborMarshalCose { Payload := [4], Signature := [5] })
    ∧ (rv.Handle32ProveToRV { sampleRv32Env with
        phase := .active true .FIDO_LISTENER_DEVICE_32_BAD_ENCODING } []).resp =
        .okResp (sampleRv32Env.fuzzBytes
          (sampleRv32Env.cborMarshalCose { Payload := [4], Signature := [5] }))
    ∧ (rv.Handle32ProveToRV { sampleRv32Env with
        phase := .active true .FIDO_LISTENER_DEVICE_32_BAD_TO1D } []).resp =
        .okResp (sampleRv32Env.cborMarshalCose
          (sampleRv32Env.fuzzCoseSignature { Payload := [4], Signature := [5] })) :=
  c3_fault_injection_output_only sampleRv30Env [] { Guid := [1], EASigInfo := 2 }
    { To0d := [9], To1d := { Payload := [4], Signature := [5] } } "tok"
    sampleRv32Env [] { Protocol := .To1, NonceTO1Proof := [7], Guid := [1] }
    { Payload := [2], Signature := [3] } { EatNonce := [7] }
    { To0d := [9], To1d := { Payload := [4], Signature := [5] } }
    { OwnershipVoucher := { OVHeaderTag := [6], OVDevCertChain := some [[8]] } }
    { OVPublicKey := { PkType := 1 } } [[8]]
    rfl rfl rfl rfl rfl rfl rfl rfl rfl rfl rfl rfl rfl

/-! ## C1 -/

/-- C1: whenever the session's `PrevCMD` is neither
`TO2_67_OWNER_SERVICE_INFO_READY` nor `TO2_69_OWNER_SERVICE_INFO`, the
`DeviceServiceInfo68` handler answers with the authentication/validation
error (`MESSAGE_BODY_ERROR`, HTTP 401) and persists no session state. -/
theorem c1_dsi68_rejects_wrong_prevcmd
    (env : to2.DSIEnv) (session : to2.To2Session) (bodyBytes : List Nat)
    (tid : testcom.FDOTestID)
    (hphase : testcom.listenerSelect env.phase = some tid)
    (h67 : session.PrevCMD ≠ fdoshared.TO2_67_OWNER_SERVICE_INFO_READY)
    (h69 : session.PrevCMD ≠ fdoshared.TO2_69_OWNER_SERVICE_INFO) :
    to2.DeviceServiceInfo68 env session bodyBytes =
      { resp := .errResp .MESSAGE_BODY_ERROR 401, persisted := none } := by
  simp [to2.DeviceServiceInfo68, hphase, to2.deviceServiceInfo68Body, h67, h69]

/-- C1 witness: a session whose previous command is 60 is rejected with the
401 validation error and nothing is persisted. -/
theorem c1_dsi68_rejects_wrong_prevcmd_witness :
    (testcom.listenerSelect to2.benignDSIEnv.phase = some .NULL_TEST
      ∧ ({ to2.initialSIOSession [] with PrevCMD := 60 } : to2.To2Session).PrevCMD ≠
          fdoshared.TO2_67_OWNER_SERVICE_INFO_READY
      ∧ ({ to2.initialSIOSession [] with PrevCMD := 60 } : to2.To2Session).PrevCMD ≠
          fdoshared.TO2_69_OWNER_SERVICE_INFO)
    ∧ to2.DeviceServiceInfo68 to2.benignDSIEnv
        { to2.initialSIOSession [] with PrevCMD := 60 } [] =
        { resp := .errResp .MESSAGE_BODY_ERROR 401, persisted := none } :=
  ⟨⟨rfl, by decide, by decide⟩,
   c1_dsi68_rejects_wrong_prevcmd to2.benignDSIEnv
     { to2.initialSIOSession [] with PrevCMD := 60 } [] .NULL_TEST rfl
     (by decide) (by decide)⟩

/-! ## C9 -/

/-- C9: when the protocol computation of `DeviceServiceInfo68` succeeds
(decode, main body, encryption wrapping) but the session persistence fails,
the handler answers with `INTERNAL_SERVER_ERROR` HTTP 500, persists nothing,
and does not return the computed protocol response.  The handler is a total
function into `DSIOutcome`, so every error path produces exactly one
response. -/
theorem c9_dsi68_persistence_failure_500
    (env : to2.DSIEnv) (session : to2.To2Session) (bodyBytes : List Nat)
    (tid : testcom.FDOTestID) (dsi : fdoshared.DeviceServiceInfo68)
    (osi : fdoshared.OwnerServiceInfo69) (session1 : to2.To2Session) (enc : List Nat)
    (hphase : testcom.listenerSelect env.phase = some tid)
    (hprev : session.PrevCMD = fdoshared.TO2_67_OWNER_SERVICE_INFO_READY ∨
             session.PrevCMD = fdoshared.TO2_69_OWNER_SERVICE_INFO)
    (hdec : env.decodeDeviceServiceInfo bodyBytes = some dsi)
    (hstep : to2.serviceInfoStep dsi session = some (osi, session1))
    (henc : env.AddEncryptionWrapping (env.cborMarshalOSI osi) session1.SessionKey
        session1.CipherSuiteName = some enc)
    (hupd : env.updateSessionOk = false) :
    to2.DeviceServiceInfo68 env session bodyBytes =
      { resp := .errResp .INTERNAL_SERVER_ERROR 500, persisted := none }
    ∧ (to2.DeviceServiceInfo68 env session bodyBytes).resp ≠ .okResp osi enc := by
  have heq : to2.DeviceServiceInfo68 env session bodyBytes =
      { resp := .errResp .INTERNAL_SERVER_ERROR 500, persisted := none } := by
    rcases hprev with h | h <;>
      simp [to2.DeviceServiceInfo68, hphase, to2.deviceServiceInfo68Body, h, hdec, hstep,
        henc, hupd, fdoshared.TO2_67_OWNER_SERVICE_INFO_READY,
        fdoshared.TO2_69_OWNER_SERVICE_INFO]
  exact ⟨heq, by rw [heq]; simp⟩

/-- C9 witness: with one buffered owner page and a failing session store,
the handler returns exactly the 500 internal error. -/
theorem c9_dsi68_persistence_failure_500_witness :
    (testcom.listenerSelect ({ to2.benignDSIEnv with updateSessionOk := false } :
        to2.DSIEnv).phase = some .NULL_TEST
      ∧ (to2.initialSIOSession [[5]]).PrevCMD = fdoshared.TO2_67_OWNER_SERVICE_INFO_READY
      ∧ ({ to2.benignDSIEnv with updateSessionOk := false } :
          to2.DSIEnv).decodeDeviceServiceInfo [] = some to2.doneDeviceServiceInfo
      ∧ to2.serviceInfoStep to2.doneDeviceServiceInfo (to2.initialSIOSession [[5]]) =
          some ({ IsMoreServiceInfo := false, IsDone := true, ServiceInfo := some [5] },
                { to2.initialSIOSession [[5]] with OwnerSIMsFinishedSending := true,
                                                   OwnerSIMsSendCounter := 1 }))
    ∧ to2.DeviceServiceInfo68 { to2.benignDSIEnv with updateSessionOk := false }
        (to2.initialSIOSession [[5]]) [] =
        { resp := .errResp .INTERNAL_SERVER_ERROR 500, persisted := none }
    ∧ (to2.DeviceServiceInfo68 { to2.benignDSIEnv with updateSessionOk := false }
        (to2.initialSIOSession [[5]]) []).resp ≠
        .okResp { IsMoreServiceInfo := false, IsDone := true, ServiceInfo := some [5] } [] :=
  ⟨⟨rfl, rfl, rfl, by decide⟩,
   c9_dsi68_persistence_failure_500 { to2.benignDSIEnv with updateSessionOk := false }
     (to2.initialSIOSession [[5]]) [] .NULL_TEST to2.doneDeviceServiceInfo
     { IsMoreServiceInfo := false, IsDone := true, ServiceInfo := some [5] }
     { to2.initialSIOSession [[5]] with OwnerSIMsFinishedSending := true,
                                        OwnerSIMsSendCounter := 1 }
     [] rfl (Or.inl rfl) rfl (by decide) rfl rfl⟩
